import Mathlib

/-!
Verification of the client-side presentation state machine of the
angel114 landing page: the rotating-word cycler (HomePage in the source)
and the light/dark theme controller (ThemeProvider configured in
RootLayout).  Definitions are shallow embeddings of the TypeScript/JS
code; where the theme-provider component itself is not part of the
sources, its operations are modelled from the specification and marked
as such in their doc comments.
-/

namespace Angel

/-! ## WordCycler: data and pure advance step -/

/-- The fixed word list from the source:
`const rotatingWords = ["lazy", "busy", "overwhelmed", "ambitious", "procrastinating", "cracked"]`. -/
def rotatingWords : List String :=
  ["lazy", "busy", "overwhelmed", "ambitious", "procrastinating", "cracked"]

/-- The interval passed to `setInterval` in the source: 2000 ms. -/
def intervalMs : Nat := 2000

/-- The pure advance step of the cycler, from the `setInterval` callback
`(prev) => (prev + 1) % rotatingWords.length`: next index is
`(currentIndex + 1) mod length`.  For `length > 0` and a non-negative
current index, JS `%` agrees with `Nat.mod`. -/
def advance (currentIndex length : Nat) : Nat :=
  (currentIndex + 1) % length

/-- Iterating the advance step from index `i` with modulus `len`:
`k` timer ticks after being at `i`. -/
def advanceIter (len k i : Nat) : Nat :=
  (fun j => advance j len)^[k] i

/-- Index held by `currentWordIndex` after `k` ticks of the interval,
starting from the mount value `useState(0)`. -/
def indexAfter (len k : Nat) : Nat :=
  advanceIter len k 0

/-- The rendered expression `rotatingWords[currentWordIndex]` after `k`
ticks: `none` models a JS out-of-bounds access yielding `undefined`. -/
def displayedWord (ws : List String) (k : Nat) : Option String :=
  ws.get? (indexAfter ws.length k)

/-- Helper: iterating the advance step adds `k` modulo `len`. -/
lemma advanceIter_eq_mod (len : Nat) (hlen : 0 < len) :
    ∀ k i, i < len → advanceIter len k i = (i + k) % len := by
  intro k
  induction k with
  | zero =>
    intro i hi
    simp [advanceIter, Nat.mod_eq_of_lt hi]
  | succ k ih =>
    intro i hi
    have hstep : advanceIter len (k + 1) i
        = advanceIter len k (advance i len) := by
      simp [advanceIter, Function.iterate_succ_apply]
    have hadv : advance i len < len := Nat.mod_lt _ hlen
    rw [hstep, ih _ hadv]
    simp only [advance]
    rw [Nat.mod_add_mod]
    congr 1
    omega

/-! ## WordCycler: timer system (setInterval / clearInterval) -/

/-- State of the cycler as mounted by `HomePage`: the `currentWordIndex`
React state and whether the interval scheduled by the effect is still
active (`clearInterval` not yet called). -/
structure CyclerSys where
  index : Nat
  running : Bool
  deriving Repr, DecidableEq

/-- Mount: `useState(0)` and the effect's `setInterval` call — index 0,
timer active. -/
def mount : CyclerSys :=
  { index := 0, running := true }

/-- One interval elapsing: if the timer is active the `setInterval`
callback fires and advances the index; after `clearInterval` the
callback never fires again, so the state is unchanged. -/
def clockTick (len : Nat) (s : CyclerSys) : CyclerSys :=
  if s.running then { s with index := advance s.index len } else s

/-- The effect cleanup `() => clearInterval(interval)`: cancels the
timer.  It is a total operation — calling it on an already-stopped
system (twice, or after teardown) is well-defined and changes nothing
further. -/
def stop (s : CyclerSys) : CyclerSys :=
  { s with running := false }

/-! ## WordCycler under full JS number semantics

The effect in `HomePage` performs no check on `rotatingWords`: with an
empty list, `rotatingWords.length` is `0` and the callback computes
`(prev + 1) % 0`, which in JS is `NaN`; every later callback computes
`NaN % 0 = NaN`, and the render reads `rotatingWords[NaN]`, which is
`undefined`.  `Option Nat` embeds the values `currentWordIndex` can
actually take: `some p` a non-negative integer, `none` the `NaN`
produced by a zero modulus. -/

/-- The `setInterval` callback `(prev) => (prev + 1) % rotatingWords.length`
under JS semantics: remainder by zero yields `NaN` (`none`), and `NaN`
propagates through `+ 1` and `%`. -/
def jsAdvance (prev : Option Nat) (len : Nat) : Option Nat :=
  match prev, len with
  | some p, l + 1 => some ((p + 1) % (l + 1))
  | _, _ => none

/-- Cycler state under JS semantics: the index may be `NaN` (`none`). -/
structure JsCyclerSys where
  index : Option Nat
  running : Bool
  deriving Repr, DecidableEq

/-- Mount under JS semantics: `useState(0)` gives index `0`; the effect
unconditionally calls `setInterval` — there is no emptiness or interval
check, so the timer is active no matter what the word list is. -/
def jsMount : JsCyclerSys :=
  { index := some 0, running := true }

/-- One interval elapsing under JS semantics. -/
def jsTick (len : Nat) (s : JsCyclerSys) : JsCyclerSys :=
  if s.running then { s with index := jsAdvance s.index len } else s

/-- The render `rotatingWords[currentWordIndex]`: `undefined` (`none`)
when the index is `NaN` or out of bounds. -/
def jsDisplayed (ws : List String) (s : JsCyclerSys) : Option String :=
  match s.index with
  | some i => ws.get? i
  | none => none

/-! ## ThemePreference

The theme-provider and theme-toggle components are consumed by
`RootLayout` and `HomePage` but their own code is outside the given
sources; the operations below are therefore modelled from the
specification. -/

/-- The theme enumeration: `light` or `dark`. -/
inductive Theme where
  | light : Theme
  | dark : Theme
  deriving Repr, DecidableEq

/-- Modelled from the spec: the persisted representation — the theme is
stored as one of the literal strings `"light"` or `"dark"`. -/
def themeToString : Theme → String
  | .light => "light"
  | .dark => "dark"

/-- Modelled from the spec: decoding a persisted string; any value other
than `"light"` or `"dark"` is invalid (`none`). -/
def parseTheme : String → Option Theme
  | "light" => some Theme.light
  | "dark" => some Theme.dark
  | _ => none

/-- Outcome of reading the persisted value by key from local storage:
found a string, key absent, or the read itself threw (storage
unavailable or corrupt). -/
inductive StorageRead where
  | found : String → StorageRead
  | absent : StorageRead
  | failure : StorageRead
  deriving Repr, DecidableEq

/-- Modelled from the spec: `initialize(storageKey, defaultValue)`
(missing theme-provider component) — reads the persisted value; if it
is missing, invalid, or the read fails, returns `defaultValue`; a read
failure is treated as "absent" rather than thrown.  Totality of this
function is the no-throw guarantee. -/
def initTheme (read : StorageRead) (defaultValue : Theme) : Theme :=
  match read with
  | .found s => (parseTheme s).getD defaultValue
  | .absent => defaultValue
  | .failure => defaultValue

/-- The browser's local key-value store, as a partial map. -/
abbrev Storage := String → Option String

/-- `localStorage.setItem key value`. -/
def setItem (st : Storage) (key value : String) : Storage :=
  fun k => if k = key then some value else st k

/-- Reading `key` from a storage that is available: found when present,
absent otherwise. -/
def readKey (st : Storage) (key : String) : StorageRead :=
  match st key with
  | some v => .found v
  | none => .absent

/-- Modelled from the spec: the process-wide theme context — the
broadcast value, the persisted store, and the root-level `dark` class
(tailwind `darkMode: 'class'`). -/
structure ThemeCtx where
  storage : Storage
  broadcast : Theme
  rootClassDark : Bool

/-- Modelled from the spec: `apply(value)` (missing theme-provider
component) — updates the broadcast value, writes `value` to persisted
storage under the storage key, and sets the root-level class that
controls theme-dependent styling. -/
def apply (ctx : ThemeCtx) (storageKey : String) (value : Theme) : ThemeCtx :=
  { storage := setItem ctx.storage storageKey (themeToString value),
    broadcast := value,
    rootClassDark := value == Theme.dark }

/-- Modelled from the spec: `toggle(current)` (missing theme-toggle
component) — the pure mapping light to dark and dark to light. -/
def toggle : Theme → Theme
  | .light => .dark
  | .dark => .light

/-! ## RootLayout configuration -/

/-- The props `RootLayout` passes to the theme provider. -/
structure ThemeProviderProps where
  defaultTheme : Theme
  storageKey : String
  deriving Repr, DecidableEq

/-- From `RootLayout`:
`<ThemeProvider defaultTheme="light" storageKey="angel-ui-theme">`. -/
def rootLayoutThemeProvider : ThemeProviderProps :=
  { defaultTheme := .light, storageKey := "angel-ui-theme" }

/-- From `tailwind.config.js`: `darkMode: 'class'` — theme-dependent
styling is keyed on a root-level class. -/
def tailwindDarkMode : String := "class"

/-! ## Claims -/

/-- Claim C1: for every word-list length `n ≥ 1` and every starting index
`i` with `0 ≤ i < n`, applying the cycler's advance operation
(`nextIndex = (currentIndex + 1) mod length`) exactly `n` times returns
to `i` (cycle closure). -/
theorem c1_advance_cycle_closure (n i : Nat) (hn : 1 ≤ n) (hi : i < n) :
    (fun j => advance j n)^[n] i = i := by
  show advanceIter n n i = i
  rw [advanceIter_eq_mod n hn n i hi, Nat.add_mod_right, Nat.mod_eq_of_lt hi]

/-- Witness for C1 at `n = 6` (the deployed list length), `i = 2`. -/
theorem c1_advance_cycle_closure_witness :
    1 ≤ 6 ∧ 2 < 6 ∧ (fun j => advance j 6)^[6] 2 = 2 :=
  ⟨by decide, by decide, c1_advance_cycle_closure 6 2 (by decide) (by decide)⟩

/-- Claim C2: for every length `n ≥ 1` and every index `0 ≤ i < n`,
`advance i n` lies in `[0, n)` — the advance step never leaves the word
list's bounds. -/
theorem c2_advance_in_bounds (n i : Nat) (hn : 1 ≤ n) (_hi : i < n) :
    advance i n < n :=
  Nat.mod_lt _ hn

/-- Witness for C2 at `n = 6`, `i = 5` (the wrap-around case). -/
theorem c2_advance_in_bounds_witness :
    1 ≤ 6 ∧ 5 < 6 ∧ advance 5 6 < 6 :=
  ⟨by decide, by decide, c2_advance_in_bounds 6 5 (by decide) (by decide)⟩

/-- Claim C3: in the end-to-end scenario — three-word list
`["a","b","c"]`, interval 2000 ms, index created at mount with value 0 —
the displayed word after tick `k` is element `k mod 3`: after 1 tick
`"b"`, after 2 ticks `"c"`, after 3 ticks back to `"a"`. -/
theorem c3_three_word_scenario :
    intervalMs = 2000 ∧
    (∀ k, indexAfter 3 k = k % 3) ∧
    displayedWord ["a", "b", "c"] 1 = some "b" ∧
    displayedWord ["a", "b", "c"] 2 = some "c" ∧
    displayedWord ["a", "b", "c"] 3 = some "a" ∧
    (∀ k, displayedWord ["a", "b", "c"] k = ["a", "b", "c"].get? (k % 3)) := by
  have hidx : ∀ k, indexAfter 3 k = k % 3 := fun k => by
    have h := advanceIter_eq_mod 3 (by decide) k 0 (by decide)
    simpa [indexAfter] using h
  refine ⟨rfl, hidx, by decide, by decide, by decide, fun k => ?_⟩
  simp only [displayedWord, List.length_cons, List.length_nil]
  rw [hidx]

/-- Claim C4: the theme toggle is the pure mapping light to dark and
dark to light, and is an involution on the two enumeration values. -/
theorem c4_toggle_involution :
    toggle Theme.light = Theme.dark ∧
    toggle Theme.dark = Theme.light ∧
    ∀ x, toggle (toggle x) = x := by
  refine ⟨rfl, rfl, fun x => ?_⟩
  cases x <;> rfl

/-- Claim C5: initialization returns the persisted theme when it is one
of the two valid literals (in particular `dark` when `"dark"` is
stored), and returns the default when the key is absent, the value is
invalid (`"purple"`), or the read fails — never throwing (the operation
is total). -/
theorem c5_init_theme_fallback :
    (∀ d, initTheme (.found "dark") d = Theme.dark) ∧
    (∀ t d, initTheme (.found (themeToString t)) d = t) ∧
    (∀ d, initTheme .absent d = d) ∧
    (∀ d, initTheme (.found "purple") d = d) ∧
    (∀ d, initTheme .failure d = d) := by
  refine ⟨fun d => rfl, fun t d => ?_, fun d => rfl, fun d => ?_, fun d => rfl⟩
  · cases t <;> rfl
  · cases d <;> rfl

/-- Claim C6: persistence round-trip — after `apply v` writes `v` to
storage, a subsequent initialization read over the same key (simulating
a reload) returns `v`, for both theme values, any prior context, any
key and any default. -/
theorem c6_persistence_roundtrip (ctx : ThemeCtx) (key : String)
    (v d : Theme) :
    initTheme (readKey (apply ctx key v).storage key) d = v := by
  cases v <;>
    simp [apply, readKey, setItem, initTheme, themeToString, parseTheme]

/-- Witness for C6 on an empty storage, the deployed key, value `dark`,
default `light`. -/
theorem c6_persistence_roundtrip_witness :
    initTheme
      (readKey
        (apply { storage := fun _ => none, broadcast := Theme.light,
                 rootClassDark := false }
          "angel-ui-theme" Theme.dark).storage
        "angel-ui-theme")
      Theme.light = Theme.dark :=
  c6_persistence_roundtrip _ "angel-ui-theme" Theme.dark Theme.light

/-- Claim C7: after the cleanup `clearInterval` runs, the index never
changes again — any number of further intervals leaves the state fixed —
and stopping twice (or after teardown) is well-defined and idempotent. -/
theorem c7_stop_freezes (len k : Nat) (s : CyclerSys) :
    ((clockTick len)^[k] (stop s)).index = s.index ∧
    stop (stop s) = stop s ∧
    clockTick len (stop s) = stop s := by
  have hfix : clockTick len (stop s) = stop s := by
    simp [clockTick, stop]
  exact ⟨by rw [Function.iterate_fixed hfix]; rfl, rfl, hfix⟩

/-- Claim C8 counterexample: with the empty word list the mount is NOT
rejected — the timer starts (`running = true`), the first tick drives
the index to JS `NaN` (`none`), and the rendered word is `undefined`
(`none`): the feature does begin cycling through undefined state. -/
theorem c8_counterexample :
    jsMount.running = true ∧
    (jsTick (List.length ([] : List String)) jsMount).index = none ∧
    jsDisplayed [] (jsTick (List.length ([] : List String)) jsMount)
      = none := by
  decide

/-- Claim C8 (amended): starting the cycler with an empty word list is
not rejected at initialization — the mount schedules the timer
unconditionally, and from the first tick onward the state is the
undefined one: index `NaN` (`none`) with the timer still running. -/
theorem c8_empty_list_not_rejected :
    jsMount.running = true ∧
    ∀ k : Nat,
      (jsTick (List.length ([] : List String)))^[k + 1] jsMount
        = { index := none, running := true } := by
  refine ⟨rfl, fun k => ?_⟩
  have h1 : jsTick (List.length ([] : List String)) jsMount
      = { index := none, running := true } := by decide
  have hfix : jsTick (List.length ([] : List String))
      ({ index := none, running := true } : JsCyclerSys)
      = { index := none, running := true } := by decide
  rw [Function.iterate_succ_apply, h1, Function.iterate_fixed hfix]

/-- Claim C9: the theme controller at the rendering root uses the fixed
storage key `"angel-ui-theme"` and default `light`; theme-dependent
styling is keyed on a root-level class (`darkMode: 'class'`, and `apply`
sets the root class exactly for `dark`); persisted values are the
literal strings `"light"` or `"dark"`. -/
theorem c9_root_configuration :
    rootLayoutThemeProvider.storageKey = "angel-ui-theme" ∧
    rootLayoutThemeProvider.defaultTheme = Theme.light ∧
    tailwindDarkMode = "class" ∧
    (∀ t, themeToString t = "light" ∨ themeToString t = "dark") ∧
    (∀ ctx key, (apply ctx key Theme.dark).rootClassDark = true) ∧
    (∀ ctx key, (apply ctx key Theme.light).rootClassDark = false) := by
  refine ⟨rfl, rfl, rfl, fun t => ?_, fun ctx key => rfl, fun ctx key => rfl⟩
  cases t
  · exact Or.inl rfl
  · exact Or.inr rfl

/-- Claim C10: in the deployed configuration the word list has 6 words
and the interval is 2000 ms > 0, so the modulus is always positive, the
index stays in bounds after any number of ticks, and
`rotatingWords[currentWordIndex]` always selects a defined element. -/
theorem c10_deployed_preconditions :
    rotatingWords.length = 6 ∧
    intervalMs = 2000 ∧
    0 < intervalMs ∧
    (∀ k, indexAfter rotatingWords.length k < rotatingWords.length) ∧
    (∀ k, (displayedWord rotatingWords k).isSome = true) := by
  have hlen : rotatingWords.length = 6 := by decide
  have hpos : 0 < rotatingWords.length := by rw [hlen]; decide
  have hidx : ∀ k, indexAfter rotatingWords.length k < rotatingWords.length :=
    fun k => by
      have h := advanceIter_eq_mod rotatingWords.length hpos k 0 hpos
      rw [indexAfter, h]
      exact Nat.mod_lt _ hpos
  refine ⟨hlen, rfl, by decide, hidx, fun k => ?_⟩
  rw [displayedWord, List.get?_eq_get (hidx k)]
  rfl

end Angel
